import Mathlib

/-!
Verification of the agent-browser daemon control plane (`src/daemon.ts`) and
its Stream Server (`stream-server.ts`), as a shallow embedding in Lean.

Strings from the JavaScript side are modelled as `List Char` (one entry per
UTF-16 code unit for the characters that occur in the claims); session names
feeding the port hash are modelled as their `charCodeAt` sequences
(`List Nat`).  Machine arithmetic of the JS `|0` coercion is modelled with
explicit wrapping on `Int`.
-/

set_option maxRecDepth 4096

/-! ## Transport addressing: session → TCP port (daemon.ts, getPortForSession) -/

/-- JS `ToInt32`: wrap an integer into the signed 32-bit range. -/
def toInt32 (n : Int) : Int := (n + 2 ^ 31) % 2 ^ 32 - 2 ^ 31

/-- One iteration of the loop body of `getPortForSession`:
`hash = (hash << 5) - hash + session.charCodeAt(i); hash |= 0;`.
The shift `hash << 5` itself truncates to 32 bits in JS, and the final
`|= 0` truncates the sum again. -/
def hashStep (h : Int) (c : Nat) : Int := toInt32 (toInt32 (h * 32) - h + c)

/-- The accumulated hash over the session name's `charCodeAt` sequence. -/
def stableHash (codes : List Nat) : Int := codes.foldl hashStep 0

/-- `getPortForSession`: `49152 + (Math.abs(hash) % 16383)`. -/
def getPortForSession (codes : List Nat) : Nat :=
  49152 + (stableHash codes).natAbs % 16383

/-! ## Stream Server origin filter (stream-server.ts, fetch handler) -/

/-- Outcome of the `fetch` handler's origin check: reject with HTTP 403, or
fall through to the upgrade attempt. -/
inductive FetchDecision where
  | forbidden403
  | tryUpgrade
deriving DecidableEq, Repr

def fileScheme : List Char := "file://".toList

/-- The origin filter of `StreamServer.start`'s `fetch` handler:
`if (origin && !origin.startsWith('file://'))` reject with 403, otherwise
attempt the WebSocket upgrade.  `origin` is `null` when the client sent no
Origin header; JS truthiness makes the empty string fall through to the
upgrade as well. -/
def originDecision (origin : Option (List Char)) : FetchDecision :=
  match origin with
  | none => .tryUpgrade
  | some o =>
      if !o.isEmpty && !(o.take 7 == fileScheme) then .forbidden403
      else .tryUpgrade

/-- C7: For every session name, the derived TCP port equals 49152 plus the
session's stable hash modulo 16383; repeated computations for the same name
yield the identical port, and every derived port lies in
`[49152, 49152 + 16383)`. -/
theorem port_for_session_range (codes : List Nat) :
    getPortForSession codes = 49152 + (stableHash codes).natAbs % 16383 ∧
    getPortForSession codes = getPortForSession codes ∧
    49152 ≤ getPortForSession codes ∧
    getPortForSession codes < 49152 + 16383 := by
  refine ⟨rfl, rfl, Nat.le_add_right _ _, ?_⟩
  have h : (stableHash codes).natAbs % 16383 < 16383 :=
    Nat.mod_lt _ (by norm_num)
  exact Nat.add_lt_add_left h 49152

/-- C5: a connection with a non-empty declared origin that does not start
with `file://` is rejected with 403 and no upgrade; a connection with no
declared origin, or with a `file://` origin, falls through to the upgrade. -/
theorem origin_filter :
    (∀ o : List Char, o ≠ [] → o.take 7 ≠ fileScheme →
      originDecision (some o) = .forbidden403) ∧
    originDecision none = .tryUpgrade ∧
    (∀ o : List Char, o.take 7 = fileScheme →
      originDecision (some o) = .tryUpgrade) := by
  refine ⟨?_, rfl, ?_⟩
  · intro o hne hpre
    simp [originDecision, List.isEmpty_iff, hne, hpre]
  · intro o hpre
    simp [originDecision, hpre]

/-- Witness for `origin_filter` at concrete origins. -/
theorem origin_filter_witness :
    originDecision (some ("http://evil.example".toList)) = .forbidden403 ∧
    originDecision none = .tryUpgrade ∧
    originDecision (some ("file:///index.html".toList)) = .tryUpgrade :=
  ⟨origin_filter.1 _ (by decide) (by decide), origin_filter.2.1,
    origin_filter.2.2 _ (by decide)⟩

/-! ## Command daemon per-connection data handler (daemon.ts, startDaemon) -/

/-- The 4 MiB buffer bound (`MAX_BUFFER_SIZE = 1024 * 1024 * 4`). -/
def MAX_BUFFER_SIZE : Nat := 1024 * 1024 * 4

/-- The whitespace class used by JS `trimStart` and the regex class `\s`
(the code points relevant here; both classes coincide on them). -/
def isJsSpace (c : Char) : Bool :=
  c = ' ' || c = '\t' || c = '\n' || c = '\r' || c = '\x0b' || c = '\x0c' ||
  c = ' ' || c = ' ' ||
  (0x2000 ≤ c.toNat && c.toNat ≤ 0x200A) ||
  c = ' ' || c = ' ' || c = ' ' || c = ' ' ||
  c = '　' || c = '﻿'

/-- The HTTP method keywords of the rejection regex
`/^(GET|POST|PUT|DELETE|HEAD|OPTIONS|PATCH|CONNECT|TRACE)\s/i`. -/
def httpMethods : List (List Char) :=
  ["GET", "POST", "PUT", "DELETE", "HEAD", "OPTIONS", "PATCH", "CONNECT",
    "TRACE"].map String.toList

/-- `m` matches case-insensitively at the head of `l` and is followed by a
whitespace character (`\s`). -/
def methodAt : List Char → List Char → Bool
  | [], l =>
      match l with
      | c :: _ => isJsSpace c
      | [] => false
  | m :: ms, l =>
      match l with
      | c :: cs => c.toUpper == m && methodAt ms cs
      | [] => false

/-- The test `/^(GET|...|TRACE)\s/i.test(trimmed)` on an already-trimmed
input. -/
def isHttpMethodLine (l : List Char) : Bool :=
  httpMethods.any fun m => methodAt m l

/-- Per-connection state (`SocketData`): accumulated chunks and the one-shot
HTTP-check flag. -/
structure SocketData where
  chunks : List (List Char)
  httpChecked : Bool
deriving DecidableEq, Repr

/-- Outcome of parsing and dispatching one complete non-blank line: the one
response line written back (a parse-error response, a command result, or a
caught-exception error response), and whether the line was a `close` command
(whose handling makes the data handler return early). -/
structure LineResp where
  out : List Char
  isClose : Bool

/-- Why `socket.terminate()` was called before any line was processed. -/
inductive TermCause where
  | oversize
  | httpReject
deriving DecidableEq, Repr

/-- Result of one `data` event: termination (no response is ever written on
a terminated path, since `terminate` precedes every `socket.write`), or
normal completion carrying the new per-connection state, the response lines
written, the non-blank lines handed to parse/dispatch, and whether a `close`
command ended processing early. -/
inductive DataResult where
  | term (cause : TermCause)
  | ok (d : SocketData) (writes : List (List Char))
      (dispatched : List (List Char)) (closedConn : Bool)
deriving DecidableEq, Repr

/-- Split the buffer exactly as the
`while (buffer.includes('\n')) { line = ...; buffer = rest }` loop does:
the complete newline-terminated lines in order, and the trailing remainder
with no newline. -/
def splitLines : List Char → List (List Char) × List Char
  | [] => ([], [])
  | c :: rest =>
      if c = '\n' then
        let (ls, rem) := splitLines rest
        ([] :: ls, rem)
      else
        match splitLines rest with
        | (l1 :: ls, rem) => ((c :: l1) :: ls, rem)
        | ([], rem) => ([], c :: rem)

/-- The body of the line loop: skip blank lines; otherwise dispatch via
`exec`; a `close` command writes its response and returns at once, never
touching the remaining lines. Returns (writes, dispatched lines, closed). -/
def runLines (exec : List Char → LineResp) :
    List (List Char) → List (List Char) × List (List Char) × Bool
  | [] => ([], [], false)
  | line :: rest =>
      if line.all isJsSpace then runLines exec rest
      else
        let r := exec line
        if r.isClose then ([r.out], [line], true)
        else
          let (ws, ds, closed) := runLines exec rest
          (r.out :: ws, line :: ds, closed)

/-- The tail of the `data` handler after both guards have passed: process
every complete line; if a `close` command ended the loop the handler
returned before the partial-line save, so `chunks` keeps everything pushed;
otherwise the trailing partial line (possibly empty) is saved back. -/
def processBuffer (exec : List Char → LineResp) (chunks : List (List Char))
    (buffer : List Char) : DataResult :=
  let (lines, rem) := splitLines buffer
  let (ws, ds, closed) := runLines exec lines
  if closed then .ok ⟨chunks, true⟩ ws ds true
  else .ok ⟨if rem.isEmpty then [] else [rem], true⟩ ws ds false

/-- One `data` event of `startDaemon`'s socket handler, with the per-line
parse/dispatch abstracted as `exec`.  Faithful ordering: the 4 MiB guard
fires before the chunk is pushed; the HTTP request-line check runs once, on
the first event only, over the trimmed joined buffer; then complete lines
are processed. -/
def dataHandler (exec : List Char → LineResp) (d : SocketData)
    (chunk : List Char) : DataResult :=
  let currentSize := (d.chunks.map List.length).sum
  if MAX_BUFFER_SIZE < currentSize + chunk.length then .term .oversize
  else
    let chunks := d.chunks ++ [chunk]
    let buffer := chunks.foldr (· ++ ·) []
    if !d.httpChecked && isHttpMethodLine (buffer.dropWhile isJsSpace) then
      .term .httpReject
    else
      processBuffer exec chunks buffer

/-- `processBuffer` always completes normally and marks the HTTP check as
done. -/
theorem processBuffer_ok (exec : List Char → LineResp)
    (chunks : List (List Char)) (buffer : List Char) :
    ∃ d ws ds c, processBuffer exec chunks buffer = .ok d ws ds c ∧
      d.httpChecked = true := by
  unfold processBuffer
  rcases hsl : splitLines buffer with ⟨lines, rem⟩
  rcases hrl : runLines exec lines with ⟨ws, ds, closed⟩
  simp only [hsl, hrl]
  cases closed
  · exact ⟨_, _, _, _, rfl, rfl⟩
  · exact ⟨_, _, _, _, rfl, rfl⟩

/-- Unfolding equation for `dataHandler` with the `let`s expanded. -/
theorem dataHandler_eq (exec : List Char → LineResp) (d : SocketData)
    (chunk : List Char) :
    dataHandler exec d chunk =
      if MAX_BUFFER_SIZE < (d.chunks.map List.length).sum + chunk.length then
        .term .oversize
      else if !d.httpChecked &&
          isHttpMethodLine
            (((d.chunks ++ [chunk]).foldr (· ++ ·) []).dropWhile isJsSpace) then
        .term .httpReject
      else
        processBuffer exec (d.chunks ++ [chunk])
          ((d.chunks ++ [chunk]).foldr (· ++ ·) []) := rfl

/-- C3: a connection whose first received bytes, after trimming leading
whitespace, match an HTTP method keyword followed by whitespace is
terminated by the daemon with no response written (the `term` result carries
no writes: `terminate` precedes every `socket.write`). -/
theorem http_first_chunk_reject (exec : List Char → LineResp)
    (chunk : List Char)
    (h : isHttpMethodLine (chunk.dropWhile isJsSpace) = true) :
    ∃ cause, dataHandler exec ⟨[], false⟩ chunk = .term cause := by
  by_cases hsz : MAX_BUFFER_SIZE < chunk.length
  · exact ⟨.oversize, by simp [dataHandler, hsz]⟩
  · exact ⟨.httpReject, by simp [dataHandler, hsz, h]⟩

/-- Witness for `http_first_chunk_reject`: the canonical probe line. -/
theorem http_first_chunk_reject_witness :
    ∃ cause, dataHandler (fun _ => ⟨[], false⟩) ⟨[], false⟩
      ("GET / HTTP/1.1\r\n".toList) = .term cause :=
  http_first_chunk_reject _ _ (by decide)

/-- C4: the `data` handler terminates a connection by the buffer-size guard
exactly when accumulating the incoming chunk would push the connection's
total unprocessed buffered length over the 4 MiB bound; at or below the
bound this guard never fires. -/
theorem buffer_bound_guard (exec : List Char → LineResp) (d : SocketData)
    (chunk : List Char) :
    dataHandler exec d chunk = .term .oversize ↔
      MAX_BUFFER_SIZE < (d.chunks.map List.length).sum + chunk.length := by
  constructor
  · intro h
    by_contra hsz
    rw [dataHandler_eq, if_neg hsz] at h
    split at h
    · exact absurd h (by simp)
    · obtain ⟨d', ws, ds, c, heq, -⟩ :=
        processBuffer_ok exec (d.chunks ++ [chunk])
          ((d.chunks ++ [chunk]).foldr (· ++ ·) [])
      rw [heq] at h
      exact absurd h (by simp)
  · intro hsz
    rw [dataHandler_eq, if_pos hsz]

/-- C10: the HTTP-request-line rejection runs only on a connection's first
data event.  A first chunk that does not match the pattern after trimming is
processed normally and latches `httpChecked`; once the flag is set, no later
chunk — even one beginning with an HTTP method line — is terminated by that
check; it is processed as ordinary line input. -/
theorem http_check_one_shot (exec : List Char → LineResp) (chunk : List Char)
    (h1 : isHttpMethodLine (chunk.dropWhile isJsSpace) = false)
    (hsz : chunk.length ≤ MAX_BUFFER_SIZE) :
    (∃ d ws ds c, dataHandler exec ⟨[], false⟩ chunk = .ok d ws ds c ∧
      d.httpChecked = true) ∧
    (∀ (d : SocketData) (next : List Char), d.httpChecked = true →
      (d.chunks.map List.length).sum + next.length ≤ MAX_BUFFER_SIZE →
      ∃ d' ws ds c, dataHandler exec d next = .ok d' ws ds c) := by
  constructor
  · rw [dataHandler_eq]
    rw [if_neg (by simpa using Nat.not_lt.mpr hsz)]
    simp only [List.nil_append, List.foldr_cons, List.foldr_nil,
      List.append_nil, Bool.not_false, Bool.true_and, h1,
      Bool.false_eq_true, if_false]
    exact processBuffer_ok exec [chunk] chunk
  · intro d next hchecked hsz2
    obtain ⟨d', ws, ds, c, heq, -⟩ :=
      processBuffer_ok exec (d.chunks ++ [next])
        ((d.chunks ++ [next]).foldr (· ++ ·) [])
    refine ⟨d', ws, ds, c, ?_⟩
    rw [dataHandler_eq, if_neg (Nat.not_lt.mpr hsz2)]
    simp only [hchecked, Bool.not_true, Bool.false_and, Bool.false_eq_true,
      if_false]
    exact heq

/-- Witness for `http_check_one_shot`: a whitespace-only first chunk, then a
chunk that begins with an HTTP method line. -/
theorem http_check_one_shot_witness :
    (∃ d ws ds c,
      dataHandler (fun _ => ⟨[], false⟩) ⟨[], false⟩ [' '] = .ok d ws ds c ∧
      d.httpChecked = true) ∧
    (∃ d' ws ds c,
      dataHandler (fun _ => ⟨[], false⟩) ⟨[[' ']], true⟩
        ("GET / HTTP/1.1\r\n".toList) = .ok d' ws ds c) :=
  ⟨(http_check_one_shot (fun _ => ⟨[], false⟩) [' '] (by decide)
      (by decide)).1,
    (http_check_one_shot (fun _ => ⟨[], false⟩) [' '] (by decide)
      (by decide)).2 ⟨[[' ']], true⟩ ("GET / HTTP/1.1\r\n".toList) rfl
      (by decide)⟩

/-- `splitLines` on a buffer made of a newline-free line, a newline, and a
tail. -/
theorem splitLines_append (l r : List Char) (hl : '\n' ∉ l) :
    splitLines (l ++ '\n' :: r) =
      (l :: (splitLines r).1, (splitLines r).2) := by
  induction l with
  | nil =>
      rcases hsr : splitLines r with ⟨ls, rem⟩
      simp [splitLines, hsr]
  | cons c cs ih =>
      have hc : ¬ c = '\n' := fun h => hl (h ▸ List.mem_cons_self c cs)
      have hcs : '\n' ∉ cs := fun h => hl (List.mem_cons_of_mem _ h)
      rw [List.cons_append]
      simp only [splitLines, if_neg hc, ih hcs]

/-- C9: once a `close` line is executed and its response written, the data
handler returns at once: complete lines already buffered after the close
line are never parsed or dispatched (`dispatched` is exactly the close
line), and the remaining unprocessed buffer is not saved back — `chunks`
keeps the whole pushed content untouched. -/
theorem close_stops_processing (exec : List Char → LineResp)
    (closeLine rest : List Char)
    (hclose : (exec closeLine).isClose = true)
    (hnb : closeLine.all isJsSpace = false)
    (hnl : '\n' ∉ closeLine)
    (hsz : closeLine.length + 1 + rest.length ≤ MAX_BUFFER_SIZE) :
    dataHandler exec ⟨[], true⟩ (closeLine ++ '\n' :: rest) =
      .ok ⟨[closeLine ++ '\n' :: rest], true⟩ [(exec closeLine).out]
        [closeLine] true := by
  rw [dataHandler_eq]
  rw [if_neg (by simp only [List.map_nil, List.sum_nil, Nat.zero_add,
    List.length_append, List.length_cons]; omega)]
  simp only [Bool.not_true, Bool.false_and, Bool.false_eq_true, if_false,
    List.nil_append, List.foldr_cons, List.foldr_nil, List.append_nil]
  unfold processBuffer
  rw [splitLines_append _ _ hnl]
  simp only [runLines, hnb, Bool.false_eq_true, if_false, hclose, if_true]

/-! ## Stream Server subscriber counting and message handling
(stream-server.ts) -/

/-- The slice of `BrowserManager` the Stream Server observes: whether the
engine is launched (checked by `startScreencast`), and whether
`getPage()` yields a page (otherwise `statusMessage` returns `null`).
Engine calls themselves (`startScreencast`, `stopScreencast`, the input
injections) are modelled as succeeding when their own guards pass. -/
structure Browser where
  launched : Bool
  hasPage : Bool

/-- The Stream Server's mutable fields relevant to subscriber counting:
`clientCount` (a JS number, decremented unconditionally on close) and the
`isScreencasting` latch. -/
structure StreamState where
  clientCount : Int
  isScreencasting : Bool
deriving DecidableEq, Repr

/-- Observable actions of the open/close handlers: a status snapshot sent to
the one client, a status broadcast, an error sent to the one client, and the
capture-pipeline start/stop calls into the engine. -/
inductive StreamEffect where
  | sendStatusTo (screencasting : Bool)
  | publishStatus (screencasting : Bool)
  | sendErrorTo
  | startPipeline
  | stopPipeline
deriving DecidableEq, Repr

/-- `statusMessage()`: `null` when `getPage()` throws (no page), otherwise a
status whose `screencasting` field is the current latch. -/
def statusMessage (b : Browser) (s : StreamState) : Option Bool :=
  if b.hasPage then some s.isScreencasting else none

/-- `startScreencast()`: no-op if already capturing; otherwise set the latch
first, roll it back and throw if the engine is not launched (the returned
`Bool` is the thrown-exception flag), else start the pipeline and broadcast
the new status. -/
def startScreencast (b : Browser) (s : StreamState) :
    StreamState × List StreamEffect × Bool :=
  if s.isScreencasting then (s, [], false)
  else if b.launched then
    let s1 := { s with isScreencasting := true }
    (s1, .startPipeline ::
      (match statusMessage b s1 with
        | some sc => [.publishStatus sc]
        | none => []), false)
  else (s, [], true)

/-- `stopScreencast()`: no-op when the latch is clear; otherwise stop the
pipeline, clear the latch, and broadcast the new status. -/
def stopScreencast (b : Browser) (s : StreamState) :
    StreamState × List StreamEffect :=
  if s.isScreencasting then
    let s1 := { s with isScreencasting := false }
    (s1, .stopPipeline ::
      (match statusMessage b s1 with
        | some sc => [.publishStatus sc]
        | none => []))
  else (s, [])

/-- `handleOpen`: count the client, send it an immediate status snapshot,
and start capture only when it is the first subscriber and the latch is
clear; a start failure is caught and reported to this client. -/
def handleOpen (b : Browser) (s : StreamState) :
    StreamState × List StreamEffect :=
  let s1 := { s with clientCount := s.clientCount + 1 }
  let st : List StreamEffect :=
    match statusMessage b s1 with
    | some sc => [.sendStatusTo sc]
    | none => []
  if s1.clientCount = 1 ∧ s1.isScreencasting = false then
    let (s2, effs, threw) := startScreencast b s1
    (s2, st ++ effs ++ (if threw then [.sendErrorTo] else []))
  else (s1, st)

/-- `handleClose`: uncount the client and stop capture only when no
subscriber remains and the latch is set. -/
def handleClose (b : Browser) (s : StreamState) :
    StreamState × List StreamEffect :=
  let s1 := { s with clientCount := s.clientCount - 1 }
  if s1.clientCount = 0 ∧ s1.isScreencasting = true then stopScreencast b s1
  else (s1, [])

/-- C2: with the engine launched and a page open — a first viewer's connect
starts the capture pipeline and a status broadcast reports
`screencasting: true`; a further viewer connecting while capture runs never
starts the pipeline again; a disconnect that leaves subscribers keeps the
pipeline running; the last disconnect stops it. -/
theorem stream_subscriber_counting (b : Browser)
    (hb : b.launched = true) (hp : b.hasPage = true) :
    (∀ s : StreamState, s.clientCount = 0 → s.isScreencasting = false →
      (handleOpen b s).1 = ⟨1, true⟩ ∧
      StreamEffect.startPipeline ∈ (handleOpen b s).2 ∧
      StreamEffect.publishStatus true ∈ (handleOpen b s).2) ∧
    (∀ s : StreamState, s.isScreencasting = true →
      (handleOpen b s).1 = ⟨s.clientCount + 1, true⟩ ∧
      StreamEffect.startPipeline ∉ (handleOpen b s).2) ∧
    (∀ s : StreamState, 2 ≤ s.clientCount → s.isScreencasting = true →
      (handleClose b s).1 = ⟨s.clientCount - 1, true⟩ ∧
      StreamEffect.stopPipeline ∉ (handleClose b s).2) ∧
    (∀ s : StreamState, s.clientCount = 1 → s.isScreencasting = true →
      (handleClose b s).1 = ⟨0, false⟩ ∧
      StreamEffect.stopPipeline ∈ (handleClose b s).2) := by
  refine ⟨?_, ?_, ?_, ?_⟩
  · intro s h0 hsc
    simp [handleOpen, startScreencast, statusMessage, hb, hp, h0, hsc]
  · intro s hsc
    simp [handleOpen, startScreencast, statusMessage, hb, hp, hsc]
  · intro s h2 hsc
    have hne : ¬ (s.clientCount - 1 = 0) := by omega
    simp [handleClose, stopScreencast, statusMessage, hp, hsc, hne]
  · intro s h1 hsc
    simp [handleClose, stopScreencast, statusMessage, hp, hsc, h1]

/-- Witness for `stream_subscriber_counting` at concrete states. -/
theorem stream_subscriber_counting_witness :
    ((handleOpen ⟨true, true⟩ ⟨0, false⟩).1 = ⟨1, true⟩ ∧
      StreamEffect.startPipeline ∈ (handleOpen ⟨true, true⟩ ⟨0, false⟩).2 ∧
      StreamEffect.publishStatus true ∈
        (handleOpen ⟨true, true⟩ ⟨0, false⟩).2) ∧
    ((handleOpen ⟨true, true⟩ ⟨1, true⟩).1 = ⟨2, true⟩ ∧
      StreamEffect.startPipeline ∉ (handleOpen ⟨true, true⟩ ⟨1, true⟩).2) ∧
    ((handleClose ⟨true, true⟩ ⟨2, true⟩).1 = ⟨1, true⟩ ∧
      StreamEffect.stopPipeline ∉ (handleClose ⟨true, true⟩ ⟨2, true⟩).2) ∧
    ((handleClose ⟨true, true⟩ ⟨1, true⟩).1 = ⟨0, false⟩ ∧
      StreamEffect.stopPipeline ∈ (handleClose ⟨true, true⟩ ⟨1, true⟩).2) :=
  ⟨(stream_subscriber_counting ⟨true, true⟩ rfl rfl).1 ⟨0, false⟩ rfl rfl,
    (stream_subscriber_counting ⟨true, true⟩ rfl rfl).2.1 ⟨1, true⟩ rfl,
    (stream_subscriber_counting ⟨true, true⟩ rfl rfl).2.2.1 ⟨2, true⟩
      (by norm_num) rfl,
    (stream_subscriber_counting ⟨true, true⟩ rfl rfl).2.2.2 ⟨1, true⟩ rfl rfl⟩

/-- The tags of the closed set of inbound stream messages handled by the
`switch` in `handleMessage`; `frame` and `error` typed messages fall through
the switch with no action. -/
inductive InKind where
  | inputMouse
  | inputKeyboard
  | inputTouch
  | statusReq
  | frameMsg
  | errMsg
deriving DecidableEq, Repr

/-- Observable actions of `handleMessage` on one inbound message. `inject`
and `sendStatus`/`sendError` go to the engine resp. the originating viewer
only; `publishBroadcast` (a topic publish reaching other viewers) and
`terminateConn` (closing the socket) are listed so their absence is
provable — `handleMessage` never performs either. -/
inductive MsgEffect where
  | inject (k : InKind)
  | sendStatus (screencasting : Bool)
  | sendError (msg : List Char)
  | publishBroadcast
  | terminateConn
deriving DecidableEq, Repr

def isInputKind : InKind → Bool
  | .inputMouse | .inputKeyboard | .inputTouch => true
  | _ => false

/-- `handleMessage`: `JSON.parse` plus dispatch, with the parse outcome and
the engine injection outcomes abstracted (`Except` carries the thrown
message).  The whole body is wrapped in `try/catch`; any throw becomes an
error message sent to the originating viewer. -/
def handleMessage (b : Browser) (s : StreamState)
    (parsed : Except (List Char) InKind)
    (injectRes : InKind → Except (List Char) Unit) : List MsgEffect :=
  match parsed with
  | .error e => [.sendError e]
  | .ok k =>
      match k with
      | .inputMouse | .inputKeyboard | .inputTouch =>
          .inject k ::
            (match injectRes k with
              | .ok _ => []
              | .error e => [.sendError e])
      | .statusReq =>
          match statusMessage b s with
          | some sc => [.sendStatus sc]
          | none => []
      | .frameMsg | .errMsg => []

/-- C8: an unparseable inbound stream message, or one whose handling
throws, is caught and turned into an error message sent to the originating
viewer only; no inbound message ever terminates the connection or publishes
anything to other viewers. -/
theorem stream_malformed_message_isolated (b : Browser) (s : StreamState)
    (injectRes : InKind → Except (List Char) Unit) :
    (∀ e, handleMessage b s (.error e) injectRes = [.sendError e]) ∧
    (∀ k e, isInputKind k = true → injectRes k = .error e →
      handleMessage b s (.ok k) injectRes = [.inject k, .sendError e]) ∧
    (∀ parsed, MsgEffect.terminateConn ∉ handleMessage b s parsed injectRes ∧
      MsgEffect.publishBroadcast ∉ handleMessage b s parsed injectRes) := by
  refine ⟨fun e => rfl, ?_, ?_⟩
  · intro k e hk hinj
    cases k <;> simp_all [handleMessage, isInputKind]
  · intro parsed
    cases parsed with
    | error e => simp [handleMessage]
    | ok k =>
        cases k <;> simp only [handleMessage] <;> (try split) <;> simp

/-- Witness for `stream_malformed_message_isolated` at a concrete malformed
message and a concrete throwing injection. -/
theorem stream_malformed_message_isolated_witness :
    handleMessage ⟨true, true⟩ ⟨1, true⟩
        (.error ("Unexpected token".toList)) (fun _ => .ok ()) =
      [.sendError ("Unexpected token".toList)] ∧
    handleMessage ⟨true, true⟩ ⟨1, true⟩ (.ok .inputMouse)
        (fun _ => .error ("boom".toList)) =
      [.inject .inputMouse, .sendError ("boom".toList)] ∧
    MsgEffect.terminateConn ∉
      handleMessage ⟨true, true⟩ ⟨1, true⟩
        (.error ("Unexpected token".toList)) (fun _ => .ok ()) ∧
    MsgEffect.publishBroadcast ∉
      handleMessage ⟨true, true⟩ ⟨1, true⟩
        (.error ("Unexpected token".toList)) (fun _ => .ok ()) :=
  ⟨(stream_malformed_message_isolated ⟨true, true⟩ ⟨1, true⟩
      (fun _ => .ok ())).1 _,
    (stream_malformed_message_isolated ⟨true, true⟩ ⟨1, true⟩
      (fun _ => .error ("boom".toList))).2.1 .inputMouse _ rfl rfl,
    ((stream_malformed_message_isolated ⟨true, true⟩ ⟨1, true⟩
      (fun _ => .ok ())).2.2 _).1,
    ((stream_malformed_message_isolated ⟨true, true⟩ ⟨1, true⟩
      (fun _ => .ok ())).2.2 _).2⟩

/-! ## Session registry: marker files, cleanup, liveness (daemon.ts) -/

/-- The per-session marker files: `<session>.pid`, `<session>.stream`, the
Windows `<session>.port`, and the Unix socket file `<session>.sock` — each
field records whether the file currently exists. -/
structure Files where
  pid : Bool
  stream : Bool
  port : Bool
  sock : Bool
deriving DecidableEq, Repr

/-- `cleanupSocket`: if a cleanup for this session is already in flight
(`cleaningUp` guard) return at once; otherwise delete (best effort) the PID
file the stream-port file, and the platform marker — the port file on
Windows, the socket file otherwise. -/
def cleanupSocket (isWin cleaning : Bool) (f : Files) : Files :=
  if cleaning then f
  else
    let f1 := { f with pid := false, stream := false }
    if isWin then { f1 with port := false } else { f1 with sock := false }

/-- What `isDaemonRunning` observes: whether the PID file exists, the result
of `parseInt` on its trimmed text (`none` for NaN), and the zero-effect
existence probe `process.kill(pid, 0)` (true = no throw). -/
structure PidEnv where
  pidFilePresent : Bool
  parsedPid : Option Int
  processAlive : Int → Bool

/-- The probe succeeds iff the PID parsed and `process.kill(pid, 0)` did not
throw. -/
def probeOk (e : PidEnv) : Bool :=
  match e.parsedPid with
  | some pid => e.processAlive pid
  | none => false

/-- `isDaemonRunning`: false when the PID file is absent; true when the
probe succeeds; on probe failure, false after cleaning up the stale marker
files. -/
def isDaemonRunning (isWin cleaning : Bool) (e : PidEnv) (f : Files) :
    Bool × Files :=
  if e.pidFilePresent = false then (false, f)
  else if probeOk e then (true, f)
  else (false, cleanupSocket isWin cleaning f)

/-- C6: with no concurrent cleanup in flight — if the PID file exists but
the existence probe fails, `isDaemonRunning` returns false and the marker
files are removed; if the PID file is absent it returns false leaving files
untouched; if the probe succeeds it returns true. -/
theorem isDaemonRunning_spec (isWin : Bool) (e : PidEnv) (f : Files) :
    (e.pidFilePresent = false → isDaemonRunning isWin false e f = (false, f)) ∧
    (e.pidFilePresent = true → probeOk e = false →
      isDaemonRunning isWin false e f = (false, cleanupSocket isWin false f) ∧
      (isDaemonRunning isWin false e f).2.pid = false ∧
      (isDaemonRunning isWin false e f).2.stream = false ∧
      (isWin = true → (isDaemonRunning isWin false e f).2.port = false) ∧
      (isWin = false → (isDaemonRunning isWin false e f).2.sock = false)) ∧
    (e.pidFilePresent = true → probeOk e = true →
      isDaemonRunning isWin false e f = (true, f)) := by
  refine ⟨?_, ?_, ?_⟩
  · intro h
    simp [isDaemonRunning, h]
  · intro hp hprobe
    refine ⟨by simp [isDaemonRunning, hp, hprobe], ?_, ?_, ?_, ?_⟩ <;>
      cases isWin <;>
        simp [isDaemonRunning, cleanupSocket, hp, hprobe]
  · intro hp hprobe
    simp [isDaemonRunning, hp, hprobe]

/-- Witness for `isDaemonRunning_spec`: a stale PID file naming a dead
process, an absent PID file, and a live process. -/
theorem isDaemonRunning_spec_witness :
    isDaemonRunning false false ⟨true, some 42, fun _ => false⟩
        ⟨true, true, true, true⟩ =
      (false, cleanupSocket false false ⟨true, true, true, true⟩) ∧
    (isDaemonRunning false false ⟨true, some 42, fun _ => false⟩
        ⟨true, true, true, true⟩).2.pid = false ∧
    (isDaemonRunning false false ⟨true, some 42, fun _ => false⟩
        ⟨true, true, true, true⟩).2.stream = false ∧
    (isDaemonRunning false false ⟨true, some 42, fun _ => false⟩
        ⟨true, true, true, true⟩).2.sock = false ∧
    isDaemonRunning false false ⟨false, none, fun _ => false⟩
        ⟨true, true, true, true⟩ = (false, ⟨true, true, true, true⟩) ∧
    isDaemonRunning false false ⟨true, some 42, fun _ => true⟩
        ⟨true, true, true, true⟩ = (true, ⟨true, true, true, true⟩) := by
  have h1 := (isDaemonRunning_spec false ⟨true, some 42, fun _ => false⟩
    ⟨true, true, true, true⟩).2.1 rfl rfl
  have h2 := (isDaemonRunning_spec false ⟨false, none, fun _ => false⟩
    ⟨true, true, true, true⟩).1 rfl
  have h3 := (isDaemonRunning_spec false ⟨true, some 42, fun _ => true⟩
    ⟨true, true, true, true⟩).2.2 rfl rfl
  exact ⟨h1.1, h1.2.1, h1.2.2.1, h1.2.2.2.2 rfl, h2, h3⟩

/-! ## Daemon shutdown triggers (daemon.ts, startDaemon handlers) -/

/-- Daemon-wide state observed by the shutdown handlers: the one-shot
`shuttingDown` flag, whether the Stream Server object is live
(`streamServer !== null`), whether the automation engine is open, whether
the listener still accepts connections, the marker files, and the exit code
passed to `process.exit` (`none` while the process runs). -/
structure DaemonState where
  shuttingDown : Bool
  streamRunning : Bool
  browserOpen : Bool
  listening : Bool
  files : Files
  exitCode : Option Nat
deriving DecidableEq, Repr

/-- The `shutdown` closure registered for SIGINT/SIGTERM/SIGHUP: one-shot
via `shuttingDown`; stop the Stream Server if running and delete its marker
file; close the engine; stop the listener; clean up the session artifacts;
exit 0. -/
def shutdownPath (isWin : Bool) (s : DaemonState) : DaemonState :=
  if s.shuttingDown then s
  else
    let s1 := { s with shuttingDown := true }
    let s2 :=
      if s1.streamRunning then
        { s1 with streamRunning := false,
                  files := { s1.files with stream := false } }
      else s1
    let s3 := { s2 with browserOpen := false, listening := false }
    { s3 with files := cleanupSocket isWin false s3.files,
              exitCode := some 0 }

/-- The `uncaughtException` and `unhandledRejection` handlers: clean up the
session marker files and exit 1 — nothing else. -/
def onFatalError (isWin : Bool) (s : DaemonState) : DaemonState :=
  { s with files := cleanupSocket isWin false s.files, exitCode := some 1 }

/-- The `beforeExit` handler: clean up the session marker files only. -/
def onBeforeExit (isWin : Bool) (s : DaemonState) : DaemonState :=
  { s with files := cleanupSocket isWin false s.files }

/-- The shutdown triggers named by the spec. -/
inductive ShutdownTrigger where
  | sigint
  | sigterm
  | sighup
  | uncaughtExc
  | unhandledRej
  | beforeExit
deriving DecidableEq, Repr

/-- Which handler each trigger is registered to run. -/
def handleTrigger (isWin : Bool) : ShutdownTrigger → DaemonState → DaemonState
  | .sigint, s => shutdownPath isWin s
  | .sigterm, s => shutdownPath isWin s
  | .sighup, s => shutdownPath isWin s
  | .uncaughtExc, s => onFatalError isWin s
  | .unhandledRej, s => onFatalError isWin s
  | .beforeExit, s => onBeforeExit isWin s

/-- What the claimed single shutdown path leaves behind: Stream Server
stopped and its marker removed, engine closed, listener stopped, session
artifacts cleaned, and an exit — code 0 when graceful, nonzero otherwise. -/
def FullShutdownRan (isWin graceful : Bool) (s' : DaemonState) : Prop :=
  s'.streamRunning = false ∧ s'.files.stream = false ∧
  s'.browserOpen = false ∧ s'.listening = false ∧ s'.files.pid = false ∧
  (isWin = true → s'.files.port = false) ∧
  (isWin = false → s'.files.sock = false) ∧
  (graceful = true → s'.exitCode = some 0) ∧
  (graceful = false → ∃ c, s'.exitCode = some c ∧ c ≠ 0)

/-- Counterexample to C1 as stated: from a live daemon (stream server
running, engine open, listener accepting), the `uncaughtException` trigger
leaves the Stream Server running, the engine open and the listener
accepting — it runs only marker-file cleanup plus `process.exit(1)`, not
the signal handlers' full shutdown path. -/
theorem shutdown_triggers_counterexample :
    (handleTrigger false .uncaughtExc
      ⟨false, true, true, true, ⟨true, true, true, true⟩, none⟩).streamRunning
        = true ∧
    (handleTrigger false .uncaughtExc
      ⟨false, true, true, true, ⟨true, true, true, true⟩, none⟩).browserOpen
        = true ∧
    (handleTrigger false .uncaughtExc
      ⟨false, true, true, true, ⟨true, true, true, true⟩, none⟩).listening
        = true ∧
    (handleTrigger false .sigint
      ⟨false, true, true, true, ⟨true, true, true, true⟩, none⟩).browserOpen
        = false ∧
    ¬ FullShutdownRan false false
      (handleTrigger false .uncaughtExc
        ⟨false, true, true, true, ⟨true, true, true, true⟩, none⟩) := by
  refine ⟨rfl, rfl, rfl, rfl, fun h => ?_⟩
  exact absurd h.2.2.1 (by decide)

/-- C1 amended: only the termination signals run the full idempotent
shutdown path (stop Stream Server and remove its marker, close the engine,
stop the listener, clean up session artifacts, exit 0); uncaught exceptions
and unhandled rejections clean up the session marker files and exit with
code 1, leaving Stream Server, engine and listener untouched; normal
process exit cleans up the marker files only. -/
theorem shutdown_triggers_amended (isWin : Bool) (s : DaemonState)
    (h : s.shuttingDown = false) :
    (∀ t, (t = ShutdownTrigger.sigint ∨ t = ShutdownTrigger.sigterm ∨
        t = ShutdownTrigger.sighup) →
      FullShutdownRan isWin true (handleTrigger isWin t s) ∧
      handleTrigger isWin t (handleTrigger isWin t s) =
        handleTrigger isWin t s) ∧
    (∀ t, (t = ShutdownTrigger.uncaughtExc ∨
        t = ShutdownTrigger.unhandledRej) →
      handleTrigger isWin t s =
        { s with files := cleanupSocket isWin false s.files,
                 exitCode := some 1 }) ∧
    handleTrigger isWin .beforeExit s =
      { s with files := cleanupSocket isWin false s.files } := by
  refine ⟨?_, ?_, rfl⟩
  · rintro t (rfl | rfl | rfl) <;>
      constructor <;>
        cases hsr : s.streamRunning <;> cases isWin <;>
          simp [handleTrigger, shutdownPath, cleanupSocket,
            FullShutdownRan, h, hsr]
  · rintro t (rfl | rfl) <;> rfl

/-- Witness for `shutdown_triggers_amended` at a live daemon state. -/
theorem shutdown_triggers_amended_witness :
    (FullShutdownRan false true (handleTrigger false .sigterm
        ⟨false, true, true, true, ⟨true, true, true, true⟩, none⟩) ∧
      handleTrigger false .sigterm (handleTrigger false .sigterm
        ⟨false, true, true, true, ⟨true, true, true, true⟩, none⟩) =
        handleTrigger false .sigterm
          ⟨false, true, true, true, ⟨true, true, true, true⟩, none⟩) ∧
    handleTrigger false .unhandledRej
        ⟨false, true, true, true, ⟨true, true, true, true⟩, none⟩ =
      ⟨false, true, true, true,
        cleanupSocket false false ⟨true, true, true, true⟩, some 1⟩ ∧
    handleTrigger false .beforeExit
        ⟨false, true, true, true, ⟨true, true, true, true⟩, none⟩ =
      ⟨false, true, true, true,
        cleanupSocket false false ⟨true, true, true, true⟩, none⟩ :=
  ⟨(shutdown_triggers_amended false
      ⟨false, true, true, true, ⟨true, true, true, true⟩, none⟩ rfl).1
      .sigterm (Or.inr (Or.inl rfl)),
    (shutdown_triggers_amended false
      ⟨false, true, true, true, ⟨true, true, true, true⟩, none⟩ rfl).2.1
      .unhandledRej (Or.inr rfl),
    (shutdown_triggers_amended false
      ⟨false, true, true, true, ⟨true, true, true, true⟩, none⟩ rfl).2.2⟩

/-- Witness for `close_stops_processing`: a close line followed by a further
complete buffered line that is never dispatched. -/
theorem close_stops_processing_witness :
    dataHandler (fun _ => ⟨['r'], true⟩) ⟨[], true⟩
        (['c'] ++ '\n' :: ['x', '\n']) =
      .ok ⟨[['c'] ++ '\n' :: ['x', '\n']], true⟩ [['r']] [['c']] true :=
  close_stops_processing (fun _ => ⟨['r'], true⟩) ['c'] ['x', '\n'] rfl
    (by decide) (by decide) (by decide)
